import Mathlib

/-
Verification of the terminal key-capture component (src/key_logger.py)
against its natural-language specification.

The script is embedded shallowly:

* `curses.keyname` (together with the `.decode('utf-8')` call on its
  result) is an external terminal-driver query that may raise; it is
  modelled as an oracle `kn : Int → Except PyErr String`, where
  `Except.error` models a raised exception.
* Python string builtins used by the script (`strip`, `lower`,
  `isprintable`, `startswith`, `replace`, `chr`) are modelled by the
  `py*` functions below, over `String` / `List Char`.
* The curses screen is modelled by an oracle saying which drawing calls
  succeed, and a trace of performed screen operations.
* A session is driven by a finite trace of key events, each carrying the
  wall-clock time `time.strftime("%H:%M:%S")` observed at that
  iteration.  A keyboard interrupt is modelled as arriving at the
  blocking `getch()` that follows the last event of the trace (the only
  suspension point of the loop).
-/

namespace KeyLogger

/-- Result of a Python call that may raise: `error` models a raised exception. -/
inductive PyErr where
  | exc : PyErr
deriving DecidableEq

/-- Models Python str.startswith for our purposes: list-prefix test on the
character data. -/
def pyStartsWith (p s : String) : Bool :=
  p.data.isPrefixOf s.data

/-- Characters stripped by Python str.strip() (ASCII whitespace). -/
def pyWhitespaceChar (c : Char) : Bool :=
  c = ' ' || c = '\t' || c = '\n' || c = '\x0d' || c = '\x0b' || c = '\x0c'

/-- Models Python str.strip(): drop leading and trailing whitespace. -/
def pyStrip (s : String) : String :=
  String.mk (((s.data.dropWhile pyWhitespaceChar).reverse.dropWhile pyWhitespaceChar).reverse)

/-- Models Python str.lower on a single character (exact on ASCII, which is
all the consent check ever compares against). -/
def pyLowerChar (c : Char) : Char :=
  if 'A' ≤ c && c ≤ 'Z' then Char.ofNat (c.toNat + 32) else c

/-- Models Python str.lower(). -/
def pyLower (s : String) : String :=
  String.mk (s.data.map pyLowerChar)

/-- Models Python str.isprintable on a single code point.  Exact on code
points below 256 and on the surrogate range; above that the Unicode
category table is approximated (only the line and paragraph separators are
treated as non-printing), which no claim depends on. -/
def pyIsPrintableCode (n : Nat) : Bool :=
  if n < 32 then false
  else if n < 127 then true
  else if n < 161 then false
  else if n = 173 then false
  else if 55296 ≤ n && n ≤ 57343 then false
  else !(n = 8232 || n = 8233)

/-- Models Python str.isprintable on a whole string. -/
def pyIsPrintableStr (s : String) : Bool :=
  s.data.all (fun c => pyIsPrintableCode c.toNat)

/-- Models Python chr(key): the code point, when `key` is in range;
`none` models the ValueError raised otherwise. -/
def pyChrCode (key : Int) : Option Nat :=
  if 0 ≤ key && key ≤ 1114111 then some key.toNat else none

/-- One-character string for a code point (only ever used on code points
that passed the printability check, hence valid scalar values). -/
def codePointStr (n : Nat) : String :=
  String.mk [Char.ofNat n]

/-- Zero-padded two-digit decimal rendering (strftime %H / %M / %S etc.). -/
def pad2 (n : Nat) : String :=
  if n < 10 then "0" ++ toString n else toString n

/-- Zero-padded four-digit decimal rendering (strftime %Y). -/
def pad4 (n : Nat) : String :=
  if n < 10 then "000" ++ toString n
  else if n < 100 then "00" ++ toString n
  else if n < 1000 then "0" ++ toString n
  else toString n

/-- Zero-padded six-digit decimal rendering (datetime microseconds). -/
def pad6 (n : Nat) : String :=
  if n < 10 then "00000" ++ toString n
  else if n < 100 then "0000" ++ toString n
  else if n < 1000 then "000" ++ toString n
  else if n < 10000 then "00" ++ toString n
  else if n < 100000 then "0" ++ toString n
  else toString n

/-- The SPECIAL_KEYS table of src/key_logger.py (lines 20-36), on a
standard ncurses platform where every `hasattr(curses, ...)` test
succeeds; the numeric values are the standard ncurses key constants.
The source guard `SPECIAL_KEYS[key] != -1` compares a string value with
an integer and is therefore always true in Python 3; it is modelled as
always passing. -/
def SPECIAL_KEYS (key : Int) : Option String :=
  if key = 27 then some "ESC"
  else if key = 10 then some "ENTER"
  else if key = 13 then some "ENTER"
  else if key = 32 then some "SPACE"
  else if key = 263 then some "BACKSPACE"
  else if key = 127 then some "BACKSPACE"
  else if key = 260 then some "LEFT"
  else if key = 261 then some "RIGHT"
  else if key = 259 then some "UP"
  else if key = 258 then some "DOWN"
  else if key = 330 then some "DELETE"
  else if key = 262 then some "HOME"
  else if key = 360 then some "END"
  else if key = 339 then some "PGUP"
  else if key = 338 then some "PGDN"
  else none

/-- readable_key_name of src/key_logger.py (lines 38-64), with the
exception structure kept explicit: the codomain `Except PyErr String`
records whether an exception escapes the function, `kn` is the
`curses.keyname(...).decode('utf-8')` oracle (its `error` models the
`try` block raising, answered by `except Exception: pass`), and the
`chr(key)` fallback likewise absorbs its possible ValueError. -/
def readable_key_name (kn : Int → Except PyErr String) (key : Int) : Except PyErr String :=
  match SPECIAL_KEYS key with
  | some name => Except.ok name
  | none =>
    match kn key with
    | Except.ok name =>
      if pyStartsWith "KEY_" name then Except.ok name
      else if name.data.length = 1 then Except.ok name
      else Except.ok name
    | Except.error _ =>
      match pyChrCode key with
      | some cp =>
        if pyIsPrintableCode cp then Except.ok (codePointStr cp)
        else Except.ok ("KEY_" ++ toString key)
      | none => Except.ok ("KEY_" ++ toString key)

/-- Value-level form of `readable_key_name` (the function never lets an
exception escape, so its result is a plain string). -/
def keyNameStr (kn : Int → Except PyErr String) (key : Int) : String :=
  match SPECIAL_KEYS key with
  | some name => name
  | none =>
    match kn key with
    | Except.ok name =>
      if pyStartsWith "KEY_" name then name
      else if name.data.length = 1 then name
      else name
    | Except.error _ =>
      match pyChrCode key with
      | some cp =>
        if pyIsPrintableCode cp then codePointStr cp
        else "KEY_" ++ toString key
      | none => "KEY_" ++ toString key

theorem readable_key_name_ok (kn : Int → Except PyErr String) (key : Int) :
    readable_key_name kn key = Except.ok (keyNameStr kn key) := by
  unfold readable_key_name keyNameStr
  cases SPECIAL_KEYS key with
  | some name => rfl
  | none =>
    cases kn key with
    | ok name =>
      by_cases h1 : pyStartsWith "KEY_" name = true
      · simp [h1]
      · by_cases h2 : name.data.length = 1 <;> simp [h1, h2]
    | error e =>
      cases pyChrCode key with
      | some cp =>
        by_cases h3 : pyIsPrintableCode cp = true <;> simp [h3]
      | none => rfl

/-- Update of the `reconstructed` list per resolved key name, from
src/key_logger.py lines 112-133.  The ESC case of that block logs the key
and breaks out of the loop without touching `reconstructed`; the loop
model below handles ESC before calling this function, and an "ESC"
argument here falls into the final catch-all branch, which also leaves
the list unchanged. -/
def updateReconstructed (recon : List Char) (keyName : String) : List Char :=
  if keyName = "BACKSPACE" then
    if recon ≠ [] then recon.dropLast else recon
  else if keyName = "ENTER" then recon ++ ['\n']
  else if keyName = "SPACE" then recon ++ [' ']
  else if keyName.data.length = 1 && pyIsPrintableStr keyName then recon ++ keyName.data
  else recon

/-- Claim-side update rule, transcribed from the wording of C3:
BACKSPACE pops the last character (no-op if empty); ENTER appends a
newline; SPACE appends a space; any other single printable character
label appends itself; every other label leaves the sequence unchanged. -/
def claimUpdate (recon : List Char) (label : String) : List Char :=
  if label = "BACKSPACE" then recon.dropLast
  else if label = "ENTER" then recon ++ ['\n']
  else if label = "SPACE" then recon ++ [' ']
  else if label.data.length = 1 && pyIsPrintableStr label then recon ++ label.data
  else recon

/-- Claim-side resolution algorithm, transcribed from the wording of C4:
first the static table, then the driver query (returned as-is when
KEY_-prefixed, as the character when one character long, as the raw name
otherwise), then the printable-character fallback, then the synthesized
KEY_<code> label. -/
def specKeyResolve (kn : Int → Except PyErr String) (key : Int) : String :=
  match SPECIAL_KEYS key with
  | some name => name
  | none =>
    match kn key with
    | Except.ok name =>
      if pyStartsWith "KEY_" name then name
      else if name.data.length = 1 then name
      else name
    | Except.error _ =>
      match pyChrCode key with
      | some cp =>
        if pyIsPrintableCode cp then codePointStr cp
        else "KEY_" ++ toString key
      | none => "KEY_" ++ toString key

/-- Newline escaping of the reconstructed text, character by character:
models str.replace("\n", "\\n"), whose pattern is a single character. -/
def escapeNL : List Char → List Char
  | [] => []
  | c :: cs => (if c = '\n' then ['\\', 'n'] else [c]) ++ escapeNL cs

/-- user_input_repr of src/key_logger.py line 177. -/
def escapeNewlines (s : String) : String :=
  String.mk (escapeNL s.data)

/-- Wall-clock time observed by time.strftime("%H:%M:%S") at one loop
iteration; the fields carry the ranges struct_time guarantees. -/
structure PyTime where
  hour : Fin 24
  minute : Fin 60
  second : Fin 60
deriving DecidableEq

/-- Rendering of time.strftime("%H:%M:%S"). -/
def fmtHMS (t : PyTime) : String :=
  pad2 t.hour.val ++ ":" ++ pad2 t.minute.val ++ ":" ++ pad2 t.second.val

/-- Value of datetime.now() at session start or end. -/
structure PyDateTime where
  year : Nat
  month : Nat
  day : Nat
  hour : Nat
  minute : Nat
  second : Nat
  microsecond : Nat
deriving DecidableEq

/-- Rendering of str(datetime): "YYYY-MM-DD HH:MM:SS" with a ".ffffff"
suffix exactly when the microsecond field is nonzero. -/
def pyDateTimeStr (d : PyDateTime) : String :=
  pad4 d.year ++ "-" ++ pad2 d.month ++ "-" ++ pad2 d.day ++ " " ++
    pad2 d.hour ++ ":" ++ pad2 d.minute ++ ":" ++ pad2 d.second ++
    (if d.microsecond = 0 then "" else "." ++ pad6 d.microsecond)

/-- Rendering of session_start.strftime('%Y%m%d_%H%M%S'). -/
def fmtFileStamp (d : PyDateTime) : String :=
  pad4 d.year ++ pad2 d.month ++ pad2 d.day ++ "_" ++
    pad2 d.hour ++ pad2 d.minute ++ pad2 d.second

/-- LOG_DIR of src/key_logger.py line 16. -/
def LOG_DIR : String := "logs"

/-- log_path of src/key_logger.py line 75 (os.path.join joins with "/"). -/
def log_path (d : PyDateTime) : String :=
  LOG_DIR ++ "/" ++ "session_" ++ fmtFileStamp d ++ ".txt"

/-- Session-start marker written at src/key_logger.py line 77
(each write carries a trailing newline; log contents are modelled as the
list of lines written, without the terminators). -/
def startMarker (d : PyDateTime) : String :=
  "--- Session started " ++ pyDateTimeStr d ++ " ---"

/-- Session-end marker written at src/key_logger.py line 174. -/
def endMarker (d : PyDateTime) : String :=
  "--- Session ended " ++ pyDateTimeStr d ++ " ---"

/-- Per-key log line written at src/key_logger.py lines 124 and 136. -/
def keyLine (t : PyTime) (keyName : String) : String :=
  fmtHMS t ++ " - " ++ keyName

/-- Final summary line written at src/key_logger.py line 178. -/
def userInputLine (recon : List Char) : String :=
  "user input: " ++ escapeNewlines (String.mk recon)

/-- Log line produced for one key event. -/
def lineOf (kn : Int → Except PyErr String) (e : PyTime × Int) : String :=
  keyLine e.1 (keyNameStr kn e.2)

/-- Reconstruction step for one key event. -/
def stepRecon (kn : Int → Except PyErr String) (recon : List Char) (e : PyTime × Int) : List Char :=
  updateReconstructed recon (keyNameStr kn e.2)

/-- Reconstructed text accumulated over a list of key events. -/
def reconOf (kn : Int → Except PyErr String) (events : List (PyTime × Int)) : List Char :=
  events.foldl (stepRecon kn) []

/-- Read loop of src/key_logger.py lines 102-170, restricted to its
effects on the log file and on `reconstructed` (the display writes are
modelled separately by `displayStep`).  The result is the list of
per-key log lines together with the final reconstructed text when the
loop ends by the ESC break; `none` means the events were exhausted with
the loop still blocked in `getch()`, where a keyboard interrupt (or an
exception escaping name resolution) aborts `main` before the
end-of-session writes. -/
def runLoop (kn : Int → Except PyErr String) :
    List (PyTime × Int) → List Char → List String × Option (List Char)
  | [], _ => ([], none)
  | (t, k) :: rest, recon =>
    match readable_key_name kn k with
    | Except.error _ => ([], none)
    | Except.ok name =>
      if name = "ESC" then
        ([keyLine t name], some recon)
      else
        let out := runLoop kn rest (updateReconstructed recon name)
        (keyLine t name :: out.1, out.2)

/-- Observable outcome of one session of `main`: the lines written to the
log file, in order, and whether `logf.close()` was reached. -/
structure SessionRun where
  lines : List String
  closed : Bool
deriving DecidableEq

/-- main of src/key_logger.py (lines 66-179), restricted to its log-file
effects: the start marker, the read loop, and - only when the loop ended
through the ESC break - the end marker, the summary line and the close. -/
def sessionRun (kn : Int → Except PyErr String) (ds : PyDateTime)
    (events : List (PyTime × Int)) (de : PyDateTime) : SessionRun :=
  match runLoop kn events [] with
  | (ls, some recon) =>
    ⟨startMarker ds :: ls ++ [endMarker de, userInputLine recon], true⟩
  | (ls, none) =>
    ⟨startMarker ds :: ls, false⟩

/-- Predicate for the summary line: a log line that begins with
"user input:". -/
def isUserLine (s : String) : Bool :=
  pyStartsWith "user input:" s

/-- Consent normalization of src/key_logger.py line 183:
input(...).strip().lower() compared against "yes". -/
def pyConsentAccepted (s : String) : Bool :=
  pyLower (pyStrip s) == "yes"

/-- Observable process-level effects of a run of the script. -/
inductive Effect where
  | mkdirLogs : Effect
  | print : String → Effect
  | promptRead : String → Effect
  | engageCurses : Effect
  | logOpen : String → Effect
  | logWrite : String → Effect
  | logClose : Effect
  | exitWith : Nat → Effect
deriving DecidableEq

/-- Effect trace of one whole run of src/key_logger.py: the module-level
os.makedirs of line 17 (run at import), then the `__main__` block of
lines 181-193.  On consent the curses session runs; on keyboard
interrupt (an uncompleted session) the handler of lines 190-192 prints
before the final message. -/
def programTrace (consentInput : String) (kn : Int → Except PyErr String)
    (ds : PyDateTime) (events : List (PyTime × Int)) (de : PyDateTime) : List Effect :=
  Effect.mkdirLogs ::
  Effect.print "This program captures keys ONLY inside this terminal window." ::
  Effect.promptRead "Type YES to continue: " ::
  (if pyConsentAccepted consentInput then
    let r := sessionRun kn ds events de
    Effect.engageCurses ::
      (Effect.logOpen (log_path ds) :: r.lines.map Effect.logWrite ++
        (if r.closed then [Effect.logClose] else [Effect.print "\nInterrupted."])) ++
      [Effect.print "Session ended. Logs saved to ./logs/"]
  else
    [Effect.print "Exiting (no consent).", Effect.exitWith 0])

/-- Screen operations performed through the curses window. -/
inductive ScreenOp where
  | scroll : ScreenOp
  | erase : ScreenOp
  | addStr : Int → String → Int → ScreenOp
  | refresh : ScreenOp
deriving DecidableEq

/-- Oracle deciding which curses drawing calls succeed: scroll(1),
addnstr on a given row, and refresh(). -/
structure DisplayOracle where
  scrollOk : Bool
  addOk : Int → Bool
  refreshOk : Bool

/-- Result of one curses call that raises curses.error when the oracle
says it fails. -/
def cursesCall (ok : Bool) (op : ScreenOp) : Except PyErr (List ScreenOp) :=
  if ok then Except.ok [op] else Except.error PyErr.exc

/-- title of src/key_logger.py line 80. -/
def title : String := "SAFE KEY CAPTURE (Terminal Only)"

/-- consent_hint of src/key_logger.py line 81. -/
def consent_hint : String := "Press keys... ESC to stop."

/-- input_heading of src/key_logger.py line 82. -/
def input_heading : String := "Your input here:"

/-- Header redraw of src/key_logger.py lines 150-155: three addnstr calls
inside one try whose except swallows curses.error, so the performed
operations are the successful prefix. -/
def headerAttempt (o : DisplayOracle) (width : Int) : List ScreenOp :=
  if o.addOk 0 then
    ScreenOp.addStr 0 title (width - 1) ::
      (if o.addOk 1 then
        ScreenOp.addStr 1 consent_hint (width - 1) ::
          (if o.addOk 2 then [ScreenOp.addStr 2 input_heading (width - 1)] else [])
      else [])
  else []

/-- Guarded line write and refresh of src/key_logger.py lines 159-170,
each in its own try with the curses.error swallowed. -/
def postOps (o : DisplayOracle) (row width : Int) (text : String) : List ScreenOp :=
  (match cursesCall (o.addOk row) (ScreenOp.addStr row text (width - 1)) with
   | Except.ok ops => ops
   | Except.error _ => []) ++
  (match cursesCall o.refreshOk ScreenOp.refresh with
   | Except.ok ops => ops
   | Except.error _ => [])

/-- Display update for one resolved key, src/key_logger.py lines 142-170:
when the next row would fall outside the visible area the window is
scrolled by one line first; if the scroll raises curses.error the screen
is erased and the three fixed headers are redrawn; the write row is then
reset to height-2; finally the key text is written and the screen
refreshed, each failure being swallowed.  The Except codomain records
whether any exception escapes the step. -/
def displayStep (o : DisplayOracle) (height width y : Int) (text : String) :
    Except PyErr (Int × List ScreenOp) :=
  let scrollPart : List ScreenOp :=
    if y ≥ height - 1 then
      match cursesCall o.scrollOk ScreenOp.scroll with
      | Except.ok ops => ops
      | Except.error _ => ScreenOp.erase :: headerAttempt o width
    else []
  let row : Int := if y ≥ height - 1 then height - 2 else y
  Except.ok (row + 1, scrollPart ++ postOps o row width text)

/-- Driver oracle that always raises (keyname fails on every code). -/
def knNone : Int → Except PyErr String := fun _ => Except.error PyErr.exc

/-- Concrete session-start datetime used by the concrete evaluations. -/
def dt0 : PyDateTime := ⟨2025, 1, 1, 0, 0, 0, 0⟩

/-- Concrete wall-clock time used by the concrete evaluations. -/
def t0 : PyTime := ⟨0, 0, 0⟩

/-- Concrete oracle with a failing scroll and all other calls fine. -/
def oScrollFail : DisplayOracle := ⟨false, fun _ => true, true⟩

/- Helper lemmas about the string renderings. -/

theorem strData_append (s t : String) : (s ++ t).data = s.data ++ t.data := by
  cases s
  cases t
  rfl

theorem str_ne_of_getElem (s t : String) (i : Nat) (cs ct : Char)
    (hs : s.data[i]? = some cs) (ht : t.data[i]? = some ct) (hne : cs ≠ ct) : s ≠ t := by
  intro h
  rw [h, ht] at hs
  exact hne (Option.some.inj hs).symm

theorem pad2_len2 (n : Nat) (h : n < 60) : (pad2 n).data.length = 2 := by
  have hall : ∀ m : Fin 60, (pad2 m.val).data.length = 2 := by decide
  exact hall ⟨n, h⟩

theorem fmtHMS_data (t : PyTime) : (fmtHMS t).data =
    (pad2 t.hour.val).data ++ ':' ::
      ((pad2 t.minute.val).data ++ ':' :: (pad2 t.second.val).data) := by
  unfold fmtHMS
  simp only [strData_append, List.append_assoc]
  rfl

theorem keyLine_getElem2 (t : PyTime) (name : String) :
    (keyLine t name).data[2]? = some ':' := by
  have h2 : (pad2 t.hour.val).data.length = 2 :=
    pad2_len2 _ (Nat.lt_trans t.hour.isLt (by norm_num))
  unfold keyLine
  simp only [strData_append, fmtHMS_data, List.append_assoc]
  rw [List.getElem?_append_right (by omega)]
  simp [h2]

theorem startMarker_getElem2 (d : PyDateTime) : (startMarker d).data[2]? = some '-' := by
  unfold startMarker
  simp only [strData_append, List.append_assoc]
  rw [List.getElem?_append_left (by decide)]
  rfl

theorem endMarker_getElem2 (d : PyDateTime) : (endMarker d).data[2]? = some '-' := by
  unfold endMarker
  simp only [strData_append, List.append_assoc]
  rw [List.getElem?_append_left (by decide)]
  rfl

theorem startMarker_getElem12 (d : PyDateTime) : (startMarker d).data[12]? = some 's' := by
  unfold startMarker
  simp only [strData_append, List.append_assoc]
  rw [List.getElem?_append_left (by decide)]
  rfl

theorem endMarker_getElem12 (d : PyDateTime) : (endMarker d).data[12]? = some 'e' := by
  unfold endMarker
  simp only [strData_append, List.append_assoc]
  rw [List.getElem?_append_left (by decide)]
  rfl

theorem userInputLine_getElem0 (recon : List Char) :
    (userInputLine recon).data[0]? = some 'u' := by
  unfold userInputLine
  simp only [strData_append]
  rw [List.getElem?_append_left (by decide)]
  rfl

theorem startMarker_getElem0 (d : PyDateTime) : (startMarker d).data[0]? = some '-' := by
  unfold startMarker
  simp only [strData_append, List.append_assoc]
  rw [List.getElem?_append_left (by decide)]
  rfl

theorem endMarker_getElem0 (d : PyDateTime) : (endMarker d).data[0]? = some '-' := by
  unfold endMarker
  simp only [strData_append, List.append_assoc]
  rw [List.getElem?_append_left (by decide)]
  rfl

theorem keyLine_ne_startMarker (t : PyTime) (name : String) (d : PyDateTime) :
    keyLine t name ≠ startMarker d :=
  str_ne_of_getElem _ _ 2 ':' '-' (keyLine_getElem2 t name) (startMarker_getElem2 d)
    (by decide)

theorem keyLine_ne_endMarker (t : PyTime) (name : String) (d : PyDateTime) :
    keyLine t name ≠ endMarker d :=
  str_ne_of_getElem _ _ 2 ':' '-' (keyLine_getElem2 t name) (endMarker_getElem2 d)
    (by decide)

theorem startMarker_ne_endMarker (d e : PyDateTime) : startMarker d ≠ endMarker e :=
  str_ne_of_getElem _ _ 12 's' 'e' (startMarker_getElem12 d) (endMarker_getElem12 e)
    (by decide)

theorem userInputLine_ne_startMarker (recon : List Char) (d : PyDateTime) :
    userInputLine recon ≠ startMarker d :=
  str_ne_of_getElem _ _ 0 'u' '-' (userInputLine_getElem0 recon) (startMarker_getElem0 d)
    (by decide)

theorem userInputLine_ne_endMarker (recon : List Char) (d : PyDateTime) :
    userInputLine recon ≠ endMarker d :=
  str_ne_of_getElem _ _ 0 'u' '-' (userInputLine_getElem0 recon) (endMarker_getElem0 d)
    (by decide)

theorem isPrefixOf_false_of_getElem (i : Nat) (p l : List Char) (cp cl : Char)
    (hp : p[i]? = some cp) (hl : l[i]? = some cl) (hne : cp ≠ cl) :
    p.isPrefixOf l = false := by
  induction i generalizing p l with
  | zero =>
    cases p with
    | nil => simp at hp
    | cons a p1 =>
      cases l with
      | nil => simp at hl
      | cons b l1 =>
        simp only [List.getElem?_cons_zero, Option.some.injEq] at hp hl
        subst hp
        subst hl
        simp [List.isPrefixOf, hne]
  | succ j ih =>
    cases p with
    | nil => simp at hp
    | cons a p1 =>
      cases l with
      | nil => simp at hl
      | cons b l1 =>
        simp only [List.getElem?_cons_succ] at hp hl
        simp [List.isPrefixOf, ih p1 l1 hp hl]

theorem isPrefixOf_self_append (l m : List Char) : l.isPrefixOf (l ++ m) = true := by
  induction l with
  | nil => simp [List.isPrefixOf]
  | cons a l1 ih => simp [List.isPrefixOf, ih]

theorem isUserLine_keyLine (t : PyTime) (name : String) :
    isUserLine (keyLine t name) = false := by
  unfold isUserLine pyStartsWith
  exact isPrefixOf_false_of_getElem 2 _ _ 'e' ':' (by decide) (keyLine_getElem2 t name)
    (by decide)

theorem isUserLine_startMarker (d : PyDateTime) : isUserLine (startMarker d) = false := by
  unfold isUserLine pyStartsWith
  exact isPrefixOf_false_of_getElem 0 _ _ 'u' '-' (by decide) (startMarker_getElem0 d)
    (by decide)

theorem isUserLine_endMarker (d : PyDateTime) : isUserLine (endMarker d) = false := by
  unfold isUserLine pyStartsWith
  exact isPrefixOf_false_of_getElem 0 _ _ 'u' '-' (by decide) (endMarker_getElem0 d)
    (by decide)

theorem isUserLine_userInputLine (recon : List Char) :
    isUserLine (userInputLine recon) = true := by
  unfold isUserLine pyStartsWith userInputLine
  simp only [strData_append]
  have hd : (['u', 's', 'e', 'r', ' ', 'i', 'n', 'p', 'u', 't', ':', ' '] : List Char) =
      ['u', 's', 'e', 'r', ' ', 'i', 'n', 'p', 'u', 't', ':'] ++ [' '] := rfl
  rw [hd, List.append_assoc]
  exact isPrefixOf_self_append _ _

/- Helper lemmas about the read loop. -/

theorem runLoop_append_esc (kn : Int → Except PyErr String) (pre : List (PyTime × Int))
    (t : PyTime) (k : Int) (post : List (PyTime × Int)) (recon : List Char)
    (hpre : ∀ e ∈ pre, keyNameStr kn e.2 ≠ "ESC") (hk : keyNameStr kn k = "ESC") :
    runLoop kn (pre ++ (t, k) :: post) recon =
      (pre.map (lineOf kn) ++ [keyLine t "ESC"], some (pre.foldl (stepRecon kn) recon)) := by
  induction pre generalizing recon with
  | nil =>
    simp only [List.nil_append, List.map_nil, List.foldl_nil]
    rw [runLoop, readable_key_name_ok, hk]
    simp
  | cons e rest ih =>
    obtain ⟨te, ke⟩ := e
    have hne : keyNameStr kn ke ≠ "ESC" := hpre (te, ke) (List.mem_cons_self _ _)
    have hrest : ∀ x ∈ rest, keyNameStr kn x.2 ≠ "ESC" :=
      fun x hx => hpre x (List.mem_cons_of_mem _ hx)
    simp only [List.cons_append]
    rw [runLoop, readable_key_name_ok]
    simp only [if_neg hne]
    rw [ih _ hrest]
    simp [lineOf, stepRecon, keyLine]

/-- Log-file outcome of an ESC-terminated session. -/
theorem sessionRun_esc (kn : Int → Except PyErr String) (ds de : PyDateTime)
    (pre : List (PyTime × Int)) (t : PyTime) (k : Int) (post : List (PyTime × Int))
    (hpre : ∀ e ∈ pre, keyNameStr kn e.2 ≠ "ESC") (hk : keyNameStr kn k = "ESC") :
    sessionRun kn ds (pre ++ (t, k) :: post) de =
      ⟨startMarker ds :: (pre.map (lineOf kn) ++ [keyLine t "ESC"]) ++
        [endMarker de, userInputLine (reconOf kn pre)], true⟩ := by
  unfold sessionRun
  rw [runLoop_append_esc kn pre t k post [] hpre hk]
  rfl

theorem escapeNL_no_newline (cs : List Char) : '\n' ∉ escapeNL cs := by
  induction cs with
  | nil => simp [escapeNL]
  | cons c cs ih =>
    by_cases h : c = '\n'
    · simp [escapeNL, h, ih]
    · simp [escapeNL, h, ih, Ne.symm h]

theorem escapeNL_length (cs : List Char) :
    (escapeNL cs).length = cs.length + cs.count '\n' := by
  induction cs with
  | nil => simp [escapeNL]
  | cons c cs ih =>
    by_cases h : c = '\n'
    · simp [escapeNL, h, ih, List.count_cons]
      omega
    · simp [escapeNL, h, ih, List.count_cons]
      omega

/- Claim theorems. -/

/-- Claim C3: per key event the reconstructed text is updated by the
stated rule - BACKSPACE pops the last character (no-op when empty),
ENTER appends a newline, SPACE appends a space, any other single
printable character label appends itself, and every other label leaves
the sequence unchanged - and the label sequence A, B, BACKSPACE, C
reconstructs to "AC". -/
theorem c3_update_rule :
    (∀ recon keyName, updateReconstructed recon keyName = claimUpdate recon keyName) ∧
    ["A", "B", "BACKSPACE", "C"].foldl updateReconstructed [] = ['A', 'C'] := by
  constructor
  · intro recon keyName
    unfold updateReconstructed claimUpdate
    by_cases hb : keyName = "BACKSPACE"
    · by_cases hr : recon = [] <;> simp [hb, hr]
    · simp [hb]
  · decide

/-- Claim C4: readable_key_name implements the ordered four-step
resolution algorithm of the specification - static table first (with
ESC, ENTER, SPACE and BACKSPACE at their documented codes), then the
driver query (KEY_-prefixed names as-is, one-character names as the
character, other names raw), then the printable-character fallback, then
the synthesized KEY_<code> label - with the first matching step
winning. -/
theorem c4_resolution_algorithm (kn : Int → Except PyErr String) (key : Int) :
    readable_key_name kn key = Except.ok (specKeyResolve kn key) ∧
    SPECIAL_KEYS 27 = some "ESC" ∧ SPECIAL_KEYS 10 = some "ENTER" ∧
    SPECIAL_KEYS 13 = some "ENTER" ∧ SPECIAL_KEYS 32 = some "SPACE" ∧
    SPECIAL_KEYS 127 = some "BACKSPACE" ∧ SPECIAL_KEYS 263 = some "BACKSPACE" := by
  refine ⟨?_, by decide, by decide, by decide, by decide, by decide, by decide⟩
  rw [readable_key_name_ok]
  rfl

/-- Claim C7: the summary line contains no literal newline - every
embedded newline of the reconstructed text is rendered as the
two-character sequence backslash n, lengthening the text by one per
newline - so the summary always occupies a single line. -/
theorem c7_newline_escaping (recon : List Char) :
    '\n' ∉ (userInputLine recon).data ∧
    (escapeNewlines (String.mk recon)).data.length = recon.length + recon.count '\n' ∧
    escapeNewlines (String.mk ['a', '\n', 'b']) = String.mk ['a', '\\', 'n', 'b'] := by
  refine ⟨?_, ?_, by decide⟩
  · unfold userInputLine
    simp only [strData_append]
    intro hmem
    rcases List.mem_append.mp hmem with h | h
    · exact absurd h (by decide)
    · exact escapeNL_no_newline recon (by simpa [escapeNewlines] using h)
  · simp [escapeNewlines, escapeNL_length]

/-- Claim C9: key-name resolution is total and never lets an exception
escape - for every oracle and key code the function returns an ok
label - and when the static table misses, the driver query raises, and
the code is not a printable character, the result is the synthesized
label KEY_<code>. -/
theorem c9_resolution_total (kn : Int → Except PyErr String) (key : Int) :
    (readable_key_name kn key).isOk = true ∧
    (SPECIAL_KEYS key = none → (kn key).isOk = false →
      (∀ cp, pyChrCode key = some cp → pyIsPrintableCode cp = false) →
      readable_key_name kn key = Except.ok ("KEY_" ++ toString key)) := by
  constructor
  · rw [readable_key_name_ok]
    rfl
  · intro hsk hkn hcp
    unfold readable_key_name
    rw [hsk]
    cases hk : kn key with
    | ok s =>
      rw [hk] at hkn
      simp [Except.isOk, Except.toBool] at hkn
    | error e =>
      cases hc : pyChrCode key with
      | some cp => simp [hcp cp hc]
      | none => simp

/-- Witness for C9 at key code -1 (chr raises) with a driver oracle that
always raises. -/
theorem c9_resolution_total_witness :
    readable_key_name knNone (-1) = Except.ok ("KEY_" ++ toString (-1 : Int)) :=
  (c9_resolution_total knNone (-1)).2 (by decide) (by decide)
    (fun cp h => by
      rw [show pyChrCode (-1) = none from by decide] at h
      exact Option.noConfusion h)

theorem keys_are_keyLines (kn : Int → Except PyErr String) (pre : List (PyTime × Int))
    (t : PyTime) (l : String) (hl : l ∈ pre.map (lineOf kn) ++ [keyLine t "ESC"]) :
    ∃ t2 n2, l = keyLine t2 n2 := by
  rcases List.mem_append.mp hl with h | h
  · rcases List.mem_map.mp h with ⟨e, he, hline⟩
    exact ⟨e.1, keyNameStr kn e.2, hline.symm⟩
  · exact ⟨t, "ESC", List.mem_singleton.mp h⟩

/-- Claim C5: whenever an event of the trace resolves to ESC, the ESC
event is logged before the loop exits and its line is the final per-key
log line, immediately followed by the session-end marker and the summary
line - no further key lines follow it. -/
theorem c5_esc_final_key_line (kn : Int → Except PyErr String) (ds de : PyDateTime)
    (events pre post : List (PyTime × Int)) (t : PyTime) (k : Int)
    (hsplit : events = pre ++ (t, k) :: post)
    (hk : keyNameStr kn k = "ESC")
    (hpre : ∀ e ∈ pre, keyNameStr kn e.2 ≠ "ESC") :
    (sessionRun kn ds events de).lines =
      (startMarker ds :: pre.map (lineOf kn)) ++
        [keyLine t "ESC", endMarker de, userInputLine (reconOf kn pre)] := by
  subst hsplit
  rw [sessionRun_esc kn ds de pre t k post hpre hk]
  simp

/-- Witness for C5: a session consisting of the single ESC key press. -/
theorem c5_esc_final_key_line_witness :
    (sessionRun knNone dt0 [(t0, 27)] dt0).lines =
      (startMarker dt0 :: List.map (lineOf knNone) []) ++
        [keyLine t0 "ESC", endMarker dt0, userInputLine (reconOf knNone [])] :=
  c5_esc_final_key_line knNone dt0 dt0 [(t0, 27)] ([] : List (PyTime × Int))
    ([] : List (PyTime × Int)) t0 27 rfl (by decide) (by decide)

/-- Claim C6 (amended): in an ESC-terminated session every consumed key
event produces exactly one log line of the form HH:MM:SS - KEY_NAME,
bracketed by the session start and end markers with the trailing
"user input:" summary line, in a log file at path
logs/session_<YYYYMMDD>_<HHMMSS>.txt named from the session start time;
a session ended by keyboard interrupt still gets one line per consumed
event but lacks the end marker and the summary line. -/
theorem c6_log_line_format (kn : Int → Except PyErr String) (ds de : PyDateTime)
    (events pre post : List (PyTime × Int)) (t : PyTime) (k : Int)
    (hsplit : events = pre ++ (t, k) :: post)
    (hk : keyNameStr kn k = "ESC")
    (hpre : ∀ e ∈ pre, keyNameStr kn e.2 ≠ "ESC") :
    (sessionRun kn ds events de).lines =
      startMarker ds ::
        (pre ++ [(t, k)]).map (fun e => fmtHMS e.1 ++ " - " ++ keyNameStr kn e.2) ++
        [endMarker de, userInputLine (reconOf kn pre)] ∧
    log_path ds = "logs/session_" ++ (pad4 ds.year ++ pad2 ds.month ++ pad2 ds.day ++ "_" ++
      pad2 ds.hour ++ pad2 ds.minute ++ pad2 ds.second) ++ ".txt" := by
  constructor
  · subst hsplit
    rw [sessionRun_esc kn ds de pre t k post hpre hk]
    simp [lineOf, keyLine, hk]
  · rfl

/-- Witness for C6: a two-event session, the letter A then ESC. -/
theorem c6_log_line_format_witness :
    (sessionRun knNone dt0 [(t0, 65), (t0, 27)] dt0).lines =
      startMarker dt0 ::
        (([(t0, 65)] ++ [(t0, 27)]) : List (PyTime × Int)).map
          (fun e => fmtHMS e.1 ++ " - " ++ keyNameStr knNone e.2) ++
        [endMarker dt0, userInputLine (reconOf knNone [(t0, 65)])] ∧
    log_path dt0 = "logs/session_" ++ (pad4 dt0.year ++ pad2 dt0.month ++ pad2 dt0.day ++ "_" ++
      pad2 dt0.hour ++ pad2 dt0.minute ++ pad2 dt0.second) ++ ".txt" :=
  c6_log_line_format knNone dt0 dt0 [(t0, 65), (t0, 27)] [(t0, 65)] [] t0 27 rfl
    (by decide) (by decide)

/-- Claim C6 counterexample: a session ended by keyboard interrupt (one
key event consumed, then the interrupt at the blocking read) leaves a
log with the start marker and the per-key line but no end marker and no
"user input:" line, so the log is not bracketed as the claim states. -/
theorem c6_interrupt_counterexample :
    (sessionRun knNone dt0 [(t0, 65)] dt0).lines = [startMarker dt0, "00:00:00 - A"] ∧
    (sessionRun knNone dt0 [(t0, 65)] dt0).lines.count (endMarker dt0) = 0 ∧
    (sessionRun knNone dt0 [(t0, 65)] dt0).lines.countP (fun l => isUserLine l) = 0 := by
  decide

/-- Claim C1 (amended): when the session exits through the ESC path the
component writes the session-end marker and a single "user input:"
summary line and closes the log file handle, and the session log then
contains exactly one start marker, exactly one end marker and exactly
one "user input:" line, in that order, regardless of session length; on
the keyboard-interrupt path the end-of-session writes and the close are
skipped (see the counterexample theorem). -/
theorem c1_esc_exit_framing (kn : Int → Except PyErr String) (ds de : PyDateTime)
    (events pre post : List (PyTime × Int)) (t : PyTime) (k : Int)
    (hsplit : events = pre ++ (t, k) :: post)
    (hk : keyNameStr kn k = "ESC")
    (hpre : ∀ e ∈ pre, keyNameStr kn e.2 ≠ "ESC") :
    (sessionRun kn ds events de).closed = true ∧
    (sessionRun kn ds events de).lines =
      startMarker ds :: (pre.map (lineOf kn) ++ [keyLine t "ESC"]) ++
        [endMarker de, userInputLine (reconOf kn pre)] ∧
    (sessionRun kn ds events de).lines.count (startMarker ds) = 1 ∧
    (sessionRun kn ds events de).lines.count (endMarker de) = 1 ∧
    (sessionRun kn ds events de).lines.countP (fun l => isUserLine l) = 1 := by
  subst hsplit
  rw [sessionRun_esc kn ds de pre t k post hpre hk]
  set keys := pre.map (lineOf kn) ++ [keyLine t "ESC"] with hkeys
  have hkeysNotStart : startMarker ds ∉ keys := by
    intro h
    obtain ⟨t2, n2, he⟩ := keys_are_keyLines kn pre t _ h
    exact keyLine_ne_startMarker t2 n2 ds he.symm
  have hkeysNotEnd : endMarker de ∉ keys := by
    intro h
    obtain ⟨t2, n2, he⟩ := keys_are_keyLines kn pre t _ h
    exact keyLine_ne_endMarker t2 n2 de he.symm
  refine ⟨rfl, rfl, ?_, ?_, ?_⟩
  · show List.count (startMarker ds)
      (startMarker ds :: keys ++ [endMarker de, userInputLine (reconOf kn pre)]) = 1
    rw [List.cons_append]
    rw [List.count_cons_self]
    rw [List.count_eq_zero.mpr]
    intro hmem
    rcases List.mem_append.mp hmem with h | h
    · exact hkeysNotStart h
    · rcases List.mem_cons.mp h with h | h
      · exact startMarker_ne_endMarker ds de h
      · exact userInputLine_ne_startMarker _ ds (List.mem_singleton.mp h).symm
  · show List.count (endMarker de)
      (startMarker ds :: keys ++ [endMarker de, userInputLine (reconOf kn pre)]) = 1
    rw [List.cons_append]
    rw [List.count_cons_of_ne (Ne.symm (startMarker_ne_endMarker ds de))]
    rw [List.count_append]
    rw [List.count_eq_zero.mpr hkeysNotEnd]
    rw [List.count_cons_self]
    rw [List.count_eq_zero.mpr]
    · intro hmem
      exact userInputLine_ne_endMarker _ de (List.mem_singleton.mp hmem).symm
  · show List.countP (fun l => isUserLine l)
      (startMarker ds :: keys ++ [endMarker de, userInputLine (reconOf kn pre)]) = 1
    have hz : List.countP (fun l => isUserLine l) keys = 0 := by
      rw [List.countP_eq_zero]
      intro l hl
      obtain ⟨t2, n2, he⟩ := keys_are_keyLines kn pre t _ hl
      simp [he, isUserLine_keyLine]
    rw [List.cons_append]
    simp [List.countP_cons, List.countP_append, hz, isUserLine_startMarker,
      isUserLine_endMarker, isUserLine_userInputLine]

/-- Witness for C1: a session with the events B, BACKSPACE, A, ESC. -/
theorem c1_esc_exit_framing_witness :
    (sessionRun knNone dt0 [(t0, 66), (t0, 127), (t0, 65), (t0, 27)] dt0).closed = true ∧
    (sessionRun knNone dt0 [(t0, 66), (t0, 127), (t0, 65), (t0, 27)] dt0).lines =
      startMarker dt0 ::
        ((([(t0, 66), (t0, 127), (t0, 65)]) : List (PyTime × Int)).map (lineOf knNone) ++
          [keyLine t0 "ESC"]) ++
        [endMarker dt0, userInputLine (reconOf knNone [(t0, 66), (t0, 127), (t0, 65)])] ∧
    (sessionRun knNone dt0 [(t0, 66), (t0, 127), (t0, 65), (t0, 27)] dt0).lines.count
      (startMarker dt0) = 1 ∧
    (sessionRun knNone dt0 [(t0, 66), (t0, 127), (t0, 65), (t0, 27)] dt0).lines.count
      (endMarker dt0) = 1 ∧
    (sessionRun knNone dt0 [(t0, 66), (t0, 127), (t0, 65), (t0, 27)] dt0).lines.countP
      (fun l => isUserLine l) = 1 :=
  c1_esc_exit_framing knNone dt0 dt0 [(t0, 66), (t0, 127), (t0, 65), (t0, 27)]
    [(t0, 66), (t0, 127), (t0, 65)] ([] : List (PyTime × Int)) t0 27 rfl
    (by decide) (by decide)

/-- Claim C1 counterexample: on the keyboard-interrupt exit path (here
with the interrupt arriving at the first blocking read) the component
writes neither the end marker nor any "user input:" line and never
reaches logf.close(), so the exactly-one-of-each-in-order property fails
for that exit path. -/
theorem c1_interrupt_counterexample :
    (sessionRun knNone dt0 ([] : List (PyTime × Int)) dt0).closed = false ∧
    (sessionRun knNone dt0 ([] : List (PyTime × Int)) dt0).lines.count (endMarker dt0) = 0 ∧
    (sessionRun knNone dt0 ([] : List (PyTime × Int)) dt0).lines.countP
      (fun l => isUserLine l) = 0 := by
  decide

/-- Claim C2 counterexample: the code strips and lowercases the consent
input before comparing it with "yes", so inputs other than the exact
confirmation string can still proceed: "yes" differs from the prompted
string "YES", and "YES" differs from the compared string "yes", yet each
engages terminal control instead of aborting. -/
theorem c2_consent_counterexample :
    (("yes" : String) ≠ "YES" ∧
      Effect.engageCurses ∈ programTrace "yes" knNone dt0 ([] : List (PyTime × Int)) dt0) ∧
    (("YES" : String) ≠ "yes" ∧
      Effect.engageCurses ∈ programTrace "YES" knNone dt0 ([] : List (PyTime × Int)) dt0) := by
  decide

/-- Claim C2 (amended): every consent input whose stripped, lowercased
form differs from "yes" makes the run abort: the effect trace contains
no log-file open, write or close, never engages terminal control, and
exits with code 0. -/
theorem c2_declined_consent_aborts (input : String) (kn : Int → Except PyErr String)
    (ds : PyDateTime) (events : List (PyTime × Int)) (de : PyDateTime)
    (h : pyConsentAccepted input = false) :
    (∀ e ∈ programTrace input kn ds events de,
      (∀ p, e ≠ Effect.logOpen p) ∧ (∀ l, e ≠ Effect.logWrite l) ∧
      e ≠ Effect.logClose ∧ e ≠ Effect.engageCurses) ∧
    Effect.exitWith 0 ∈ programTrace input kn ds events de := by
  unfold programTrace
  rw [h]
  constructor
  · intro e he
    simp only [if_neg Bool.false_ne_true, List.mem_cons, List.mem_singleton,
      List.not_mem_nil, or_false] at he
    rcases he with rfl | rfl | rfl | rfl | rfl <;>
      exact ⟨fun p hp => Effect.noConfusion hp, fun l hl => Effect.noConfusion hl,
        fun hc => Effect.noConfusion hc, fun hg => Effect.noConfusion hg⟩
  · simp

/-- Witness for C2 (amended) at the declined consent input "no". -/
theorem c2_declined_consent_aborts_witness :
    (∀ e ∈ programTrace "no" knNone dt0 ([] : List (PyTime × Int)) dt0,
      (∀ p, e ≠ Effect.logOpen p) ∧ (∀ l, e ≠ Effect.logWrite l) ∧
      e ≠ Effect.logClose ∧ e ≠ Effect.engageCurses) ∧
    Effect.exitWith 0 ∈ programTrace "no" knNone dt0 ([] : List (PyTime × Int)) dt0 :=
  c2_declined_consent_aborts "no" knNone dt0 ([] : List (PyTime × Int)) dt0 (by decide)

/-- Claim C10: the logs directory is created at program startup, before
the consent prompt is shown - the effect trace of every run begins with
the mkdir, the introduction message and the consent prompt - so the
directory side effect occurs even on runs where consent is declined. -/
theorem c10_mkdir_before_consent (input : String) (kn : Int → Except PyErr String)
    (ds : PyDateTime) (events : List (PyTime × Int)) (de : PyDateTime) :
    (programTrace input kn ds events de).take 3 =
      [Effect.mkdirLogs,
       Effect.print "This program captures keys ONLY inside this terminal window.",
       Effect.promptRead "Type YES to continue: "] ∧
    (pyConsentAccepted input = false →
      Effect.mkdirLogs ∈ programTrace input kn ds events de) := by
  constructor
  · rfl
  · intro h
    exact List.mem_cons_self _ _

/-- Witness for C10 at the declined consent input "no". -/
theorem c10_mkdir_before_consent_witness :
    (programTrace "no" knNone dt0 ([] : List (PyTime × Int)) dt0).take 3 =
      [Effect.mkdirLogs,
       Effect.print "This program captures keys ONLY inside this terminal window.",
       Effect.promptRead "Type YES to continue: "] ∧
    Effect.mkdirLogs ∈ programTrace "no" knNone dt0 ([] : List (PyTime × Int)) dt0 :=
  ⟨(c10_mkdir_before_consent "no" knNone dt0 ([] : List (PyTime × Int)) dt0).1,
   (c10_mkdir_before_consent "no" knNone dt0 ([] : List (PyTime × Int)) dt0).2 (by decide)⟩

/-- Claim C8: the display step never propagates a drawing failure - it
always returns ok - and when the next line would fall outside the
visible area it scrolls the display up by one line before writing at the
bottom row; when the scroll call fails it erases the screen and redraws
the three fixed header lines instead, then continues with the guarded
write and refresh. -/
theorem c8_display_failures (o : DisplayOracle) (height width y : Int) (text : String) :
    (displayStep o height width y text).isOk = true ∧
    (y ≥ height - 1 → o.scrollOk = true →
      displayStep o height width y text =
        Except.ok (height - 1, ScreenOp.scroll :: postOps o (height - 2) width text)) ∧
    (y ≥ height - 1 → o.scrollOk = false →
      displayStep o height width y text =
        Except.ok (height - 1,
          (ScreenOp.erase :: headerAttempt o width) ++ postOps o (height - 2) width text)) := by
  have harith : height - 2 + 1 = height - 1 := by omega
  refine ⟨rfl, ?_, ?_⟩
  · intro h1 h2
    unfold displayStep
    rw [if_pos h1, if_pos h1, h2]
    simp [cursesCall, harith]
  · intro h1 h2
    unfold displayStep
    rw [if_pos h1, if_pos h1, h2]
    simp [cursesCall, harith]

/-- Witness for C8: a full screen (write row beyond the visible area)
with a failing scroll call. -/
theorem c8_display_failures_witness :
    (displayStep oScrollFail 5 80 4 "A").isOk = true ∧
    displayStep oScrollFail 5 80 4 "A" =
      Except.ok (4, (ScreenOp.erase :: headerAttempt oScrollFail 80) ++
        postOps oScrollFail 3 80 "A") :=
  ⟨(c8_display_failures oScrollFail 5 80 4 "A").1,
   by
    have h := (c8_display_failures oScrollFail 5 80 4 "A").2.2 (by decide) rfl
    simpa using h⟩

end KeyLogger
